import Mathlib

/-!
Verification development for the Boog chat backend (`app.py`).

The pipeline under study: a `/chat` request carries an optional `message`
and an optional `mode`.  The orchestrator (`chat`) strips the message,
lowercases the mode (default `"wisdom"`), and dispatches: mode `"ai"` runs
`generate_ai_response` (web search, grounded prompt, OpenAI completion);
any other mode picks a canned quote, falling back to the `"roast"` bank
when the mode is not a quote key.

External effects are modelled by explicit parameters:
  - each search endpoint attempt is an `EndpointOutcome` (the result of the
    HTTP GET plus schema parsing for that endpoint: `err` when the attempt
    raised, `ok rs` when it parsed to the result list `rs`);
  - the OpenAI completion call is a function from the two messages sent
    (system prompt, user prompt) to an `LLMOutcome`;
  - `random.choice` is modelled by an arbitrary index reduced modulo the
    list length;
  - an uncaught Python exception propagating out of the pipeline is the
    `PyResult.raised` constructor.
-/

/-- A unified search result: the dictionaries `{title, snippet, url}`
produced by the search layer. -/
structure SearchResult where
  title : String
  snippet : String
  url : String
deriving DecidableEq, Repr

/-- What one endpoint attempt in `search_web` yields: `err` when the HTTP
GET or the parsing raised an exception (caught by the per-endpoint
`except` clause), `ok rs` when it produced the parsed result list `rs`. -/
inductive EndpointOutcome where
  | err : EndpointOutcome
  | ok : List SearchResult → EndpointOutcome
deriving DecidableEq, Repr

/-- Outcome of the OpenAI chat-completion call: `err` when the provider or
transport raised, `ok content` when it returned the message content. -/
inductive LLMOutcome where
  | err : LLMOutcome
  | ok : String → LLMOutcome
deriving DecidableEq, Repr

/-- Result of running a piece of Python code: either a value, or an
uncaught exception propagating to the caller. -/
inductive PyResult (α : Type) where
  | raised : PyResult α
  | value : α → PyResult α
deriving DecidableEq, Repr

/-- Python `str.lower()` (per-character simple lowercasing). -/
def py_lower (s : String) : String := ⟨s.data.map Char.toLower⟩

/-- Python `str.strip()`: drop leading and trailing whitespace. -/
def py_strip (s : String) : String :=
  ⟨(((s.data.dropWhile Char.isWhitespace).reverse).dropWhile Char.isWhitespace).reverse⟩

/-- Boolean test that `pat` is a leading segment of `l`. -/
def startsWith : List Char → List Char → Bool
  | [], _ => true
  | _ :: _, [] => false
  | a :: as, b :: bs => a = b && startsWith as bs

/-- Characters of `l` before the first occurrence of `sep`
(all of `l` when `sep` never occurs): Python `l.split(sep)[0]`. -/
def splitFirst (sep : List Char) : List Char → List Char
  | [] => []
  | c :: rest => if startsWith sep (c :: rest) then [] else c :: splitFirst sep rest

/-- Boolean occurrence test: does `pat` occur contiguously inside `l`? -/
def containsSub : List Char → List Char → Bool
  | [], pat => pat.isEmpty
  | c :: rest, pat => startsWith pat (c :: rest) || containsSub rest pat

/-- String-level occurrence test (Python `pat in s`). -/
def strContains (s pat : String) : Bool := containsSub s.data pat.data

/-- Python `sep.join(l)`. -/
def joinWith (sep : String) : List String → String
  | [] => ""
  | [x] => x
  | x :: xs => x ++ sep ++ joinWith sep xs

/-- The wisdom quote bank (`BOOG_QUOTES["wisdom"]`). -/
def wisdom_quotes : List String :=
  [ "Sleep is the answer to most problems.",
    "If it fits, sit. If it doesn’t fit, sit anyway.",
    "The humans rush, the cat observes.",
    "Sometimes doing nothing is doing everything.",
    "Patience is a purr-tue." ]

/-- The roast quote bank (`BOOG_QUOTES["roast"]`). -/
def roast_quotes : List String :=
  [ "That\x27s your plan? I\x27ve seen mice with better strategy.",
    "You\x27re typing? Cute. Still won\x27t fix your code.",
    "Bold of you to assume anyone cares.",
    "Wow. Even the litter box smells better than that idea.",
    "You again? I was hoping for someone interesting." ]

/-- The `BOOG_QUOTES` dictionary as a partial lookup from mode name to
phrase list. -/
def BOOG_QUOTES (mode : String) : Option (List String) :=
  if mode = "wisdom" then some wisdom_quotes
  else if mode = "roast" then some roast_quotes
  else none

/-- Python `random.choice l`, modelled by an arbitrary natural index taken
modulo the list length. -/
def random_choice (l : List String) (i : Nat) : String := l.getD (i % l.length) ""

/-- The endpoint loop of `search_web`, over the outcomes of the successive
endpoint attempts.  Returns the produced result list together with the
number of endpoints actually contacted.  An `err` outcome is caught by the
per-endpoint handler (log a warning, `continue`); an `ok` outcome with an
empty list also falls through to the next endpoint; the first `ok` with a
non-empty list returns it truncated to `max_results`.  After the loop the
function returns the empty list.  The function is total: no outcome makes
it raise. -/
def search_web_from : List EndpointOutcome → Nat → List SearchResult × Nat
  | [], _ => ([], 0)
  | o :: rest, max_results =>
    match o with
    | .err =>
      let r := search_web_from rest max_results
      (r.1, r.2 + 1)
    | .ok results =>
      if results.isEmpty then
        let r := search_web_from rest max_results
        (r.1, r.2 + 1)
      else (results.take max_results, 1)

/-- `search_web(query, max_results)`: the chain result (first component of
the loop). -/
def search_web (outcomes : List EndpointOutcome) (max_results : Nat := 5) :
    List SearchResult :=
  (search_web_from outcomes max_results).1

/-- A nested entry of a `RelatedTopics` category (only its `Text` and
`FirstURL` keys are ever read); `none` models an absent key. -/
structure DDGSub where
  text : Option String
  firstURL : Option String
deriving DecidableEq, Repr

/-- A top-level entry of the `RelatedTopics` array of a DuckDuckGo
instant-answer payload; `none` models an absent key. -/
structure DDGTopic where
  text : Option String
  firstURL : Option String
  topics : Option (List DDGSub)
deriving DecidableEq, Repr

/-- The separator `" – "` (space, en dash, space) used to derive titles. -/
def ddg_sep : List Char := (" – ").data

/-- Title derivation: `topic["Text"].split(" – ")[0][:80]`. -/
def ddg_title (text : String) : String := ⟨(splitFirst ddg_sep text.data).take 80⟩

/-- One unified result from a `Text`/`FirstURL` pair. -/
def mk_ddg_result (text url : String) : SearchResult :=
  { title := ddg_title text, snippet := text, url := url }

/-- The per-entry step of `_parse_ddg_instant_answer`: the `if`/`elif` on
one element of `RelatedTopics`. -/
def parseTopic (topic : DDGTopic) : List SearchResult :=
  match topic.text, topic.firstURL with
  | some t, some u => [mk_ddg_result t u]
  | _, _ =>
    match topic.topics with
    | some subs =>
      subs.filterMap fun sub =>
        match sub.text, sub.firstURL with
        | some t, some u => some (mk_ddg_result t u)
        | _, _ => none
    | none => []

/-- `_parse_ddg_instant_answer(payload)`: flatten `RelatedTopics` into the
unified schema. -/
def parse_ddg_instant_answer (relatedTopics : List DDGTopic) : List SearchResult :=
  (relatedTopics.map parseTopic).flatten

/-- The per-entry flattening as the specification words it: an entry
carrying `Text` and `FirstURL` becomes one result, and an entry nesting a
`Topics` array contributes one result per nested entry carrying `Text` and
`FirstURL`; each result takes its title from `Text` truncated at the first
`" – "` and capped to 80 characters, its snippet from the full `Text`, and
its url from `FirstURL`.  Written from the claim, for comparison with
`parse_ddg_instant_answer`. -/
def specTopicResults (topic : DDGTopic) : List SearchResult :=
  (match topic.text, topic.firstURL with
   | some t, some u =>
     [{ title := ⟨(splitFirst ddg_sep t.data).take 80⟩, snippet := t, url := u }]
   | _, _ => []) ++
  (match topic.topics with
   | some subs =>
     subs.filterMap fun sub =>
       match sub.text, sub.firstURL with
       | some t, some u =>
         some { title := ⟨(splitFirst ddg_sep t.data).take 80⟩, snippet := t, url := u }
       | _, _ => none
   | none => [])

/-- The one-level flattening of the whole payload as the specification
words it. -/
def specFlatten (relatedTopics : List DDGTopic) : List SearchResult :=
  (relatedTopics.map specTopicResults).flatten

/-- The context line built for one search result:
`f"- (title): (snippet) (source: (url))"`. -/
def context_line (res : SearchResult) : String :=
  "- " ++ res.title ++ ": " ++ res.snippet ++ " (source: " ++ res.url ++ ")"

/-- The web-context block: the joined context lines, or the placeholder
when there are none. -/
def contextOf (results : List SearchResult) : String :=
  let lines := results.map context_line
  if lines.isEmpty then "(No relevant results found.)" else joinWith "\n" lines

/-- The system message sent to the model. -/
def system_prompt : String :=
  "You are Boog, a sassy but helpful research cat. " ++
  "Provide concise, accurate answers using the provided web context. " ++
  "Always cite facts inline as (source). If context is empty, answer politely " ++
  "that you couldn\x27t find current info."

/-- The user message sent to the model. -/
def user_prompt (question context : String) : String :=
  "Web context:\n" ++ context ++ "\n\nUser question: " ++ question ++
  "\n\nAnswer like a research agent cat."

/-- The fixed message returned when `OPENAI_API_KEY` is unset. -/
def OPENAI_UNAVAILABLE : String :=
  "OPENAI_API_KEY is not set on the server – AI mode is temporarily unavailable."

/-- Result of `generate_ai_response`: the returned (or raised) value,
together with whether the completion call was issued. -/
structure AIResult where
  response : PyResult String
  llmCalled : Bool
deriving DecidableEq, Repr

/-- `generate_ai_response(question)`.  Runs the search chain (outcomes of
its endpoint attempts are `searchOutcomes`), builds the context block and
the two messages, then checks the API key: when it is empty the fixed
unavailable message is returned without issuing the completion call.
Otherwise the completion call is issued with the two messages; its raising
is NOT caught here, so an `LLMOutcome.err` propagates as `PyResult.raised`.
A returned content is stripped, an empty answer replaced by the fixed
placeholder. -/
def generate_ai_response (question : String) (searchOutcomes : List EndpointOutcome)
    (apiKey : String) (llm : String → String → LLMOutcome) : AIResult :=
  let results := search_web searchOutcomes 8
  let context := contextOf results
  let up := user_prompt question context
  if apiKey = "" then
    { response := .value OPENAI_UNAVAILABLE, llmCalled := false }
  else
    match llm system_prompt up with
    | .err => { response := .raised, llmCalled := true }
    | .ok content =>
      let answer := py_strip content
      { response := .value (if answer = "" then "(No response from AI)" else answer),
        llmCalled := true }

/-- The quote branch of the `/chat` route: fall back to `"roast"` when the
mode is not a `BOOG_QUOTES` key, then choose randomly from the bank. -/
def pick_quote (mode : String) (i : Nat) : String :=
  let m := if (BOOG_QUOTES mode).isSome then mode else "roast"
  random_choice ((BOOG_QUOTES m).getD []) i

/-- Result of the `/chat` route body: the response (or a propagated
exception), and whether the search chain and the completion call were
invoked. -/
structure ChatOutcome where
  response : PyResult String
  searchCalled : Bool
  llmCalled : Bool
deriving DecidableEq, Repr

/-- The `/chat` route body.  `message`/`mode` are the (optional) payload
fields; the message is stripped, the mode defaulted to `"wisdom"` and
lowercased.  Mode `"ai"` runs `generate_ai_response` (which always invokes
the search chain first); every other mode takes the quote branch and
touches no provider. -/
def chat (message : Option String) (mode : Option String) (quoteIndex : Nat)
    (searchOutcomes : List EndpointOutcome) (apiKey : String)
    (llm : String → String → LLMOutcome) : ChatOutcome :=
  let user_input := py_strip (message.getD "")
  let m := py_lower (mode.getD "wisdom")
  if m = "ai" then
    let r := generate_ai_response user_input searchOutcomes apiKey llm
    { response := r.response, searchCalled := true, llmCalled := r.llmCalled }
  else
    { response := .value (pick_quote m quoteIndex),
      searchCalled := false, llmCalled := false }

/-- Concrete result fixtures used in witnesses and counterexamples. -/
def resA : SearchResult := { title := "A", snippet := "snippet a", url := "http://a.example" }

/-- Second concrete result fixture. -/
def resB : SearchResult := { title := "B", snippet := "snippet b", url := "http://b.example" }

/-- Membership of the modelled `random.choice`. -/
theorem random_choice_mem (l : List String) (i : Nat) (h : l ≠ []) :
    random_choice l i ∈ l := by
  have hlen : 0 < l.length := List.length_pos.mpr h
  have hm : i % l.length < l.length := Nat.mod_lt _ hlen
  rw [random_choice, List.getD_eq_getElem _ _ hm]
  exact List.getElem_mem _

/-- A list starts with itself followed by anything. -/
theorem startsWith_self_append (pat t : List Char) :
    startsWith pat (pat ++ t) = true := by
  induction pat with
  | nil => rfl
  | cons a as ih => simp [startsWith, ih]

/-- The empty pattern occurs in every list. -/
theorem containsSub_nil_pat (l : List Char) : containsSub l [] = true := by
  cases l <;> simp [containsSub, startsWith]

/-- A pattern occurs in any list that decomposes around it. -/
theorem containsSub_of_append (s t pat : List Char) :
    containsSub (s ++ (pat ++ t)) pat = true := by
  induction s with
  | nil =>
    cases pat with
    | nil => simpa using containsSub_nil_pat t
    | cons p ps =>
      simp only [List.nil_append, List.cons_append]
      simp [containsSub]
      exact Or.inl (startsWith_self_append (p :: ps) t)
  | cons c cs ih =>
    simp only [List.cons_append]
    simp [containsSub, ih]

/-- Any member of the joined list occurs as a contiguous segment of the
join. -/
theorem joinWith_mem_parts (sep : String) (l : List String) (x : String)
    (h : x ∈ l) : ∃ s t : List Char, (joinWith sep l).data = s ++ (x.data ++ t) := by
  induction l with
  | nil => cases h
  | cons y ys ih =>
    cases ys with
    | nil =>
      rcases List.mem_singleton.mp h with rfl
      exact ⟨[], [], by simp [joinWith]⟩
    | cons z zs =>
      rcases List.mem_cons.mp h with rfl | hmem
      · refine ⟨[], (sep ++ joinWith sep (z :: zs)).data, ?_⟩
        simp [joinWith, String.data_append]
      · rcases ih hmem with ⟨s, t, hst⟩
        refine ⟨(y ++ sep).data ++ s, t, ?_⟩
        simp [joinWith, String.data_append, hst]

/-- Claim C5: for every query and every ordered endpoint configuration,
the search chain stops at the first endpoint whose parsed response yields
at least one result: it returns that endpoint's results truncated to
`max_results`, and no subsequent endpoint in the chain is contacted (the
number of contacted endpoints is the position of the first successful
endpoint). -/
theorem search_web_stops_at_first_success (pre post : List EndpointOutcome)
    (rs : List SearchResult) (m : Nat) (hrs : rs ≠ [])
    (hpre : ∀ o ∈ pre, o = EndpointOutcome.err ∨ o = EndpointOutcome.ok []) :
    search_web_from (pre ++ EndpointOutcome.ok rs :: post) m
      = (rs.take m, pre.length + 1) := by
  induction pre with
  | nil =>
    simp [search_web_from, List.isEmpty_iff, hrs]
  | cons o os ih =>
    have hos : ∀ o' ∈ os, o' = EndpointOutcome.err ∨ o' = EndpointOutcome.ok [] :=
      fun o' h' => hpre o' (List.mem_cons_of_mem _ h')
    rcases hpre o (List.mem_cons_self _ _) with rfl | rfl
    · simp [search_web_from, ih hos]
    · simp [search_web_from, List.isEmpty, ih hos]

/-- Witness for claim C5 at a concrete configuration: two fruitless
endpoints, then a successful one, then a further endpoint that the chain
never reaches. -/
theorem search_web_stops_at_first_success_witness :
    ([resA, resB] ≠ ([] : List SearchResult))
    ∧ (∀ o ∈ [EndpointOutcome.err, EndpointOutcome.ok []],
        o = EndpointOutcome.err ∨ o = EndpointOutcome.ok [])
    ∧ search_web_from
        ([EndpointOutcome.err, EndpointOutcome.ok []]
          ++ EndpointOutcome.ok [resA, resB] :: [EndpointOutcome.ok [resB]]) 1
        = ([resA, resB].take 1, [EndpointOutcome.err, EndpointOutcome.ok []].length + 1) :=
  ⟨by decide, by decide,
    search_web_stops_at_first_success [EndpointOutcome.err, EndpointOutcome.ok []]
      [EndpointOutcome.ok [resB]] [resA, resB] 1 (by decide) (by decide)⟩

/-- Claim C6: if every configured endpoint attempt either raises or yields
an empty result set, the search operation returns the empty list after
contacting every endpoint; the loop consumes the erroneous outcomes, so no
exception reaches the caller (the embedding is a total function). -/
theorem search_web_exhausted_returns_empty (outcomes : List EndpointOutcome)
    (m : Nat)
    (h : ∀ o ∈ outcomes, o = EndpointOutcome.err ∨ o = EndpointOutcome.ok []) :
    search_web_from outcomes m = ([], outcomes.length) := by
  induction outcomes with
  | nil => rfl
  | cons o os ih =>
    have hos : ∀ o' ∈ os, o' = EndpointOutcome.err ∨ o' = EndpointOutcome.ok [] :=
      fun o' h' => h o' (List.mem_cons_of_mem _ h')
    rcases h o (List.mem_cons_self _ _) with rfl | rfl
    · simp [search_web_from, ih hos]
    · simp [search_web_from, List.isEmpty, ih hos]

/-- Witness for claim C6 at a concrete exhausted configuration. -/
theorem search_web_exhausted_returns_empty_witness :
    (∀ o ∈ [EndpointOutcome.err, EndpointOutcome.ok [], EndpointOutcome.err],
        o = EndpointOutcome.err ∨ o = EndpointOutcome.ok [])
    ∧ search_web_from [EndpointOutcome.err, EndpointOutcome.ok [], EndpointOutcome.err] 5
        = ([], 3) :=
  ⟨by decide,
    search_web_exhausted_returns_empty
      [EndpointOutcome.err, EndpointOutcome.ok [], EndpointOutcome.err] 5 (by decide)⟩

/-- When the key is set, the completion call is issued whatever its
outcome. -/
theorem generate_ai_response_llmCalled (question : String)
    (so : List EndpointOutcome) (key : String)
    (llm : String → String → LLMOutcome) (hk : key ≠ "") :
    (generate_ai_response question so key llm).llmCalled = true := by
  unfold generate_ai_response
  rw [if_neg hk]
  cases llm system_prompt (user_prompt question (contextOf (search_web so 8))) <;> rfl

/-- Counterexample to claim C1: at a concrete request with the key set and
the completion call raising, the exception propagates out of
`generate_ai_response` (the response is `raised`, not any fixed string):
the provider error is not caught inside the pipeline. -/
theorem completion_error_not_caught_cex :
    (generate_ai_response "hi" [EndpointOutcome.err, EndpointOutcome.err, EndpointOutcome.err]
        "sk-test" (fun _ _ => LLMOutcome.err)).response = PyResult.raised := by
  rfl

/-- Claim C1 (amended): a transport or provider error raised by the
completion call is NOT caught inside the pipeline: whenever the API key is
set and the completion call raises, the raw exception propagates out of
`generate_ai_response` to the HTTP layer.  Only the missing-credential
case and the empty-answer case are converted to fixed strings. -/
theorem completion_error_propagates (question : String)
    (so : List EndpointOutcome) (key : String)
    (llm : String → String → LLMOutcome) (hk : key ≠ "")
    (hllm : ∀ s u, llm s u = LLMOutcome.err) :
    (generate_ai_response question so key llm).response = PyResult.raised := by
  unfold generate_ai_response
  rw [if_neg hk, hllm]

/-- Witness for the amended claim C1 at a concrete input. -/
theorem completion_error_propagates_witness :
    ("sk-test" : String) ≠ ""
    ∧ (generate_ai_response "hi" ([] : List EndpointOutcome) "sk-test"
        (fun _ _ => LLMOutcome.err)).response = PyResult.raised :=
  ⟨by decide,
    completion_error_propagates "hi" [] "sk-test" (fun _ _ => LLMOutcome.err)
      (by decide) (fun _ _ => rfl)⟩

/-- Counterexample to claim C2: at the concrete request with a blank
message and mode `"ai"`, the pipeline does not short-circuit: the search
chain is invoked, the completion call is invoked, and the response is the
model answer, not a fixed prompt asking for input. -/
theorem blank_message_not_short_circuited_cex :
    chat (some "   ") (some "ai") 0
        [EndpointOutcome.err, EndpointOutcome.err, EndpointOutcome.err] "sk-test"
        (fun _ _ => LLMOutcome.ok "hello")
      = { response := PyResult.value "hello", searchCalled := true, llmCalled := true } := by
  rfl

/-- Claim C2 (amended): an empty or blank message is NOT short-circuited:
the stripped message is dispatched by mode like any other.  In mode `"ai"`
the search chain is invoked, the completion call is invoked whenever the
key is set, and the response is exactly that of running the pipeline on
the empty string. -/
theorem blank_message_runs_pipeline (message : String) (i : Nat)
    (so : List EndpointOutcome) (key : String)
    (llm : String → String → LLMOutcome)
    (hb : py_strip message = "") (hk : key ≠ "") :
    (chat (some message) (some "ai") i so key llm).searchCalled = true
    ∧ (chat (some message) (some "ai") i so key llm).llmCalled = true
    ∧ (chat (some message) (some "ai") i so key llm).response
        = (generate_ai_response "" so key llm).response := by
  have hchat : chat (some message) (some "ai") i so key llm
      = { response := (generate_ai_response (py_strip message) so key llm).response,
          searchCalled := true,
          llmCalled := (generate_ai_response (py_strip message) so key llm).llmCalled } := rfl
  rw [hchat, hb]
  exact ⟨rfl, generate_ai_response_llmCalled "" so key llm hk, rfl⟩

/-- Witness for the amended claim C2 at a concrete blank message. -/
theorem blank_message_runs_pipeline_witness :
    py_strip " " = "" ∧ ("sk-w" : String) ≠ ""
    ∧ ((chat (some " ") (some "ai") 0 ([] : List EndpointOutcome) "sk-w"
          (fun _ _ => LLMOutcome.ok "hi")).searchCalled = true
       ∧ (chat (some " ") (some "ai") 0 ([] : List EndpointOutcome) "sk-w"
          (fun _ _ => LLMOutcome.ok "hi")).llmCalled = true
       ∧ (chat (some " ") (some "ai") 0 ([] : List EndpointOutcome) "sk-w"
          (fun _ _ => LLMOutcome.ok "hi")).response
           = (generate_ai_response "" ([] : List EndpointOutcome) "sk-w"
              (fun _ _ => LLMOutcome.ok "hi")).response) :=
  ⟨rfl, by decide,
    blank_message_runs_pipeline " " 0 [] "sk-w" (fun _ _ => LLMOutcome.ok "hi")
      rfl (by decide)⟩

/-- Counterexample to claim C3: at the concrete request with mode `"web"`
and every search endpoint empty or failing, the response is a roast quote
(mode `"web"` is not recognized), not a fixed no-results string; the
search chain itself is never invoked on this path. -/
theorem web_mode_returns_roast_cex :
    chat (some "weather today") (some "web") 0
        [EndpointOutcome.err, EndpointOutcome.ok [], EndpointOutcome.err] "sk-test"
        (fun _ _ => LLMOutcome.ok "sunny")
      = { response := PyResult.value "That\x27s your plan? I\x27ve seen mice with better strategy.",
          searchCalled := false, llmCalled := false } := by
  rfl

/-- Claim C3 (amended): this variant has no web-grounded mode.  The mode
strings `"web"`, `"web-search"` and `"search"` are not quote-bank keys and
are dispatched to the roast-quote fallback: the response is a roast quote
and neither the search chain nor the language-model client is invoked; no
fixed no-results string exists in the pipeline. -/
theorem web_modes_fall_back_to_roast (m : String)
    (hm : m = "web" ∨ m = "web-search" ∨ m = "search")
    (message : Option String) (i : Nat) (so : List EndpointOutcome)
    (key : String) (llm : String → String → LLMOutcome) :
    chat message (some m) i so key llm
      = { response := PyResult.value (random_choice roast_quotes i),
          searchCalled := false, llmCalled := false } := by
  rcases hm with rfl | rfl | rfl <;> rfl

/-- Witness for the amended claim C3 at a concrete input. -/
theorem web_modes_fall_back_to_roast_witness :
    (("web-search" : String) = "web" ∨ ("web-search" : String) = "web-search"
      ∨ ("web-search" : String) = "search")
    ∧ chat (some "weather") (some "web-search") 2 ([] : List EndpointOutcome) ""
        (fun _ _ => LLMOutcome.err)
      = { response := PyResult.value (random_choice roast_quotes 2),
          searchCalled := false, llmCalled := false } :=
  ⟨Or.inr (Or.inl rfl),
    web_modes_fall_back_to_roast "web-search" (Or.inr (Or.inl rfl))
      (some "weather") 2 [] "" (fun _ _ => LLMOutcome.err)⟩

/-- A string contains a pattern around which its characters decompose. -/
theorem strContains_of_data_decomp (s pat : String) (l r : List Char)
    (h : s.data = l ++ (pat.data ++ r)) : strContains s pat = true := by
  rw [strContains, h]
  exact containsSub_of_append _ _ _

set_option maxRecDepth 20000 in
/-- Counterexample to claim C4: at a concrete pair of results titled `A`
and `B`, the built prompt contains no literal bracketed marker, and
neither does the instruction preface: results are not numbered. -/
theorem prompt_has_no_numbered_markers_cex :
    strContains (user_prompt "q" (contextOf [resA, resB])) "[1]" = false
    ∧ strContains system_prompt "[1]" = false
    ∧ strContains system_prompt "numbered" = false := by
  refine ⟨?_, ?_, ?_⟩ <;> rfl

/-- Claim C4 (amended): the grounded prompt does not number its results.
Each result is rendered as the dash-bullet line
`- title: snippet (source: url)`; for every non-empty result list, each
result's line occurs literally in the built user prompt, and the
instruction preface directs the model to cite facts inline as `(source)`,
not by bracketed index. -/
theorem prompt_renders_dash_bullet_lines (question : String)
    (results : List SearchResult) (r : SearchResult) (hr : r ∈ results) :
    strContains (user_prompt question (contextOf results)) (context_line r) = true
    ∧ strContains system_prompt "cite facts inline as (source)" = true := by
  constructor
  · have hne : results.map context_line ≠ [] := by
      intro hnil
      rw [List.map_eq_nil_iff] at hnil
      subst hnil
      cases hr
    have hctx : contextOf results = joinWith "\n" (results.map context_line) := by
      unfold contextOf
      rw [if_neg]
      simp [List.isEmpty_iff, hne]
    obtain ⟨s, t, hst⟩ := joinWith_mem_parts "\n" (results.map context_line)
      (context_line r) (List.mem_map_of_mem _ hr)
    refine strContains_of_data_decomp _ _ ("Web context:\n".data ++ s)
      (t ++ ("\n\nUser question: " ++ question
        ++ "\n\nAnswer like a research agent cat.").data) ?_
    simp [user_prompt, hctx, String.data_append, hst]
  · rfl

/-- Witness for the amended claim C4 at a concrete result list. -/
theorem prompt_renders_dash_bullet_lines_witness :
    resA ∈ [resA, resB]
    ∧ (strContains (user_prompt "q" (contextOf [resA, resB])) (context_line resA) = true
       ∧ strContains system_prompt "cite facts inline as (source)" = true) :=
  ⟨by decide, prompt_renders_dash_bullet_lines "q" [resA, resB] resA (by decide)⟩

/-- Claim C7: on every instant-answer payload whose entries each take one
of the two documented shapes (a `Text`/`FirstURL` pair, or a category
nesting a `Topics` array, but not both at once), the parser's output is
exactly the one-level flattening described by the specification: one
result per shaped entry, one result per shaped nested entry, each with
title equal to `Text` truncated at the first `" – "` and capped to 80
characters, snippet equal to the full `Text`, and url equal to
`FirstURL`. -/
theorem parse_ddg_matches_spec (rts : List DDGTopic)
    (h : ∀ topic ∈ rts,
      ¬(topic.text.isSome ∧ topic.firstURL.isSome ∧ topic.topics.isSome)) :
    parse_ddg_instant_answer rts = specFlatten rts := by
  unfold parse_ddg_instant_answer specFlatten
  congr 1
  refine List.map_congr_left ?_
  intro topic ht
  have hsh := h topic ht
  rcases topic with ⟨tx, fu, tp⟩
  cases tx <;> cases fu <;> cases tp <;>
    simp_all [parseTopic, specTopicResults, mk_ddg_result, ddg_title]

/-- Witness for claim C7 on a concrete payload mixing a direct entry, a
category with a valid and an invalid nested entry, and separator-bearing
texts; the flattening and the 80-character cap are evaluated exactly. -/
theorem parse_ddg_matches_spec_witness :
    (∀ topic ∈
        [ DDGTopic.mk (some "Alpha – first thing") (some "http://alpha.example") none,
          DDGTopic.mk none none
            (some [ DDGSub.mk (some "Beta – second") (some "http://beta.example"),
                    DDGSub.mk (some "Gamma no url") none ]) ],
      ¬(topic.text.isSome ∧ topic.firstURL.isSome ∧ topic.topics.isSome))
    ∧ parse_ddg_instant_answer
        [ DDGTopic.mk (some "Alpha – first thing") (some "http://alpha.example") none,
          DDGTopic.mk none none
            (some [ DDGSub.mk (some "Beta – second") (some "http://beta.example"),
                    DDGSub.mk (some "Gamma no url") none ]) ]
        = specFlatten
            [ DDGTopic.mk (some "Alpha – first thing") (some "http://alpha.example") none,
              DDGTopic.mk none none
                (some [ DDGSub.mk (some "Beta – second") (some "http://beta.example"),
                        DDGSub.mk (some "Gamma no url") none ]) ]
    ∧ parse_ddg_instant_answer
        [ DDGTopic.mk (some "Alpha – first thing") (some "http://alpha.example") none,
          DDGTopic.mk none none
            (some [ DDGSub.mk (some "Beta – second") (some "http://beta.example"),
                    DDGSub.mk (some "Gamma no url") none ]) ]
        = [ { title := "Alpha", snippet := "Alpha – first thing", url := "http://alpha.example" },
            { title := "Beta", snippet := "Beta – second", url := "http://beta.example" } ] :=
  ⟨by decide,
    parse_ddg_matches_spec _ (by decide),
    by decide⟩

/-- Claim C8: when the `OPENAI_API_KEY` credential is absent (empty), the
AI path returns the fixed human-readable unavailable message and never
issues the completion call, whatever the question, the search outcomes and
the model behaviour. -/
theorem missing_key_returns_unavailable (question : String)
    (so : List EndpointOutcome) (llm : String → String → LLMOutcome) :
    generate_ai_response question so "" llm
      = { response := PyResult.value OPENAI_UNAVAILABLE, llmCalled := false } := rfl

/-- Claim C9: for every request dispatched to the quote branch (lowercased
mode different from `"ai"`), the response is a quote drawn from the bank
of that mode when the mode is a recognized quote key, and from the default
`"roast"` bank otherwise. -/
theorem quote_pick_respects_banks (message mode : Option String) (i : Nat)
    (so : List EndpointOutcome) (key : String)
    (llm : String → String → LLMOutcome)
    (hm : py_lower (mode.getD "wisdom") ≠ "ai") :
    ∃ q, (chat message mode i so key llm).response = PyResult.value q
      ∧ q ∈ (BOOG_QUOTES (py_lower (mode.getD "wisdom"))).getD roast_quotes := by
  refine ⟨pick_quote (py_lower (mode.getD "wisdom")) i, ?_, ?_⟩
  · simp only [chat]
    rw [if_neg hm]
  · generalize py_lower (mode.getD "wisdom") = m0
    cases hq : BOOG_QUOTES m0 with
    | none =>
      have hroast : BOOG_QUOTES "roast" = some roast_quotes := rfl
      simp [pick_quote, hq, hroast]
      exact random_choice_mem _ _ (by decide)
    | some l =>
      have hl : l = wisdom_quotes ∨ l = roast_quotes := by
        unfold BOOG_QUOTES at hq
        split at hq
        · exact Or.inl (Option.some.inj hq).symm
        · split at hq
          · exact Or.inr (Option.some.inj hq).symm
          · cases hq
      have hlne : l ≠ [] := by rcases hl with rfl | rfl <;> decide
      simp [pick_quote, hq]
      exact random_choice_mem _ _ hlne

/-- Witness for claim C9 at a concrete unrecognized (and upper-case) mode:
the response falls back to the roast bank. -/
theorem quote_pick_respects_banks_witness :
    py_lower ((some "WEB").getD "wisdom") ≠ "ai"
    ∧ ∃ q, (chat (some "hi") (some "WEB") 3 ([] : List EndpointOutcome) ""
        (fun _ _ => LLMOutcome.err)).response = PyResult.value q
      ∧ q ∈ (BOOG_QUOTES (py_lower ((some "WEB").getD "wisdom"))).getD roast_quotes :=
  ⟨by decide,
    quote_pick_respects_banks (some "hi") (some "WEB") 3 [] ""
      (fun _ _ => LLMOutcome.err) (by decide)⟩

/-- Claim C10: when the mode field is absent the orchestrator defaults to
the `"wisdom"` quote path: the response is a member of the wisdom bank and
neither the search chain nor the completion call is invoked; and modes are
lowercased before dispatch, so `"AI"` and `"Wisdom"` select the same paths
as `"ai"` and `"wisdom"` (the latter coinciding with the absent-mode
default). -/
theorem default_mode_is_wisdom (message : Option String) (i : Nat)
    (so : List EndpointOutcome) (key : String)
    (llm : String → String → LLMOutcome) :
    (chat message none i so key llm
        = { response := PyResult.value (random_choice wisdom_quotes i),
            searchCalled := false, llmCalled := false }
      ∧ random_choice wisdom_quotes i ∈ wisdom_quotes)
    ∧ chat message (some "AI") i so key llm = chat message (some "ai") i so key llm
    ∧ chat message (some "Wisdom") i so key llm = chat message none i so key llm :=
  ⟨⟨rfl, random_choice_mem wisdom_quotes i (by decide)⟩, rfl, rfl⟩
